import Mathlib

/-!
Shallow embedding of the chat subsystem of the Argus backend
(`backend/chat/{models,services,schemas,api_router,consumers}.py`).

Conventions of the embedding:
* user ids, product ids, thread ids, message ids and timestamps are `Nat`;
  Django's `uuid4` primary keys are modelled by a fresh-id supply
  (`freshThreadId`), which captures exactly the uniqueness the code relies on;
* the database is an explicit `ChatState` record of row lists, kept in
  insertion order; Django `QuerySet.filter`/`get`/`first` become `List.filter`
  and `List.find?`; `update(...)` becomes `List.map` with a field update;
* a `@transaction.atomic` block is one Lean state-transition function, so
  atomicity is by construction: no intermediate state exists;
* `timezone.now()` is passed in as an explicit `now : Nat` argument.
-/

namespace ArgusChat

/-- A user row: only the fields the chat code reads (`users.models.User`):
the primary key and the `user_type` string (`"buyer"` or `"supplier"`,
from `users.models.UserType`). -/
structure UserT where
  id : Nat
  user_type : String
deriving DecidableEq

/-- A product row: only the fields the chat code reads
(`products.models.Product.owner_id`). -/
structure Product where
  id : Nat
  owner_id : Nat
deriving DecidableEq

/-- `chat.models.ChatThread`: buyer, supplier, optional product scope,
creation and last-activity timestamps. -/
structure ChatThread where
  id : Nat
  buyer_id : Nat
  supplier_id : Nat
  product_id : Option Nat
  created_at : Nat
  updated_at : Nat
deriving DecidableEq

/-- `chat.models.ChatMessage`. -/
structure ChatMessage where
  id : Nat
  thread_id : Nat
  sender_id : Nat
  text : String
  created_at : Nat
deriving DecidableEq

/-- `chat.models.ChatThreadParticipant`: per-(thread, user) read state. -/
structure ChatThreadParticipant where
  thread_id : Nat
  user_id : Nat
  last_read_at : Option Nat
  unread_count : Nat
deriving DecidableEq

/-- The database state visible to the chat subsystem. -/
structure ChatState where
  users : List UserT
  products : List Product
  threads : List ChatThread
  messages : List ChatMessage
  participants : List ChatThreadParticipant
deriving DecidableEq

/-- `ChatThread.is_participant` (`chat/models.py`):
`user.id == self.buyer_id or user.id == self.supplier_id`. -/
def ChatThread.is_participant (t : ChatThread) (user_id : Nat) : Bool :=
  user_id == t.buyer_id || user_id == t.supplier_id

/-- `ChatThread.get_other_participant` (`chat/models.py`). -/
def ChatThread.get_other_participant (t : ChatThread) (user_id : Nat) : Nat :=
  if user_id == t.buyer_id then t.supplier_id else t.buyer_id

/-- Python `str.strip()` with no argument: remove leading and trailing
whitespace characters. -/
def pyStrip (s : String) : String :=
  String.mk (((s.data.dropWhile Char.isWhitespace).reverse.dropWhile
    Char.isWhitespace).reverse)

/-- Model of `uuid.uuid4` for thread primary keys: an id strictly larger
than every existing thread id, hence fresh. -/
def freshThreadId (s : ChatState) : Nat :=
  (s.threads.map ChatThread.id).foldr max 0 + 1

/-- The lookup used by `ChatService.get_or_create_thread`:
`Q(buyer=buyer, supplier=supplier)` conjoined with `Q(product=product)`
when a product is given and `Q(product__isnull=True)` otherwise. -/
def threadMatches (buyer supplier : Nat) (product : Option Nat)
    (t : ChatThread) : Bool :=
  t.buyer_id == buyer && t.supplier_id == supplier && t.product_id == product

/-- The thread row built by `ChatThread.objects.create(...)` inside
`get_or_create_thread` (timestamps from `auto_now_add`/`auto_now`). -/
def newThreadRec (s : ChatState) (buyer supplier : Nat)
    (product : Option Nat) (now : Nat) : ChatThread :=
  { id := freshThreadId s, buyer_id := buyer, supplier_id := supplier,
    product_id := product, created_at := now, updated_at := now }

/-- The two read-state rows `bulk_create`d with a new thread, in source
order: buyer first, supplier second, both with `unread_count=0`. -/
def newParticipantRows (tid buyer supplier : Nat) :
    List ChatThreadParticipant :=
  [ { thread_id := tid, user_id := buyer, last_read_at := none,
      unread_count := 0 },
    { thread_id := tid, user_id := supplier, last_read_at := none,
      unread_count := 0 } ]

/-- `ChatService.get_or_create_thread` (`chat/services.py`): atomic
find-or-insert; on creation, also inserts both `ChatThreadParticipant`
rows with `unread_count=0` via `bulk_create`. Returns `(thread, created)`
and the post-transaction state. -/
def get_or_create_thread (s : ChatState) (buyer supplier : Nat)
    (product : Option Nat) (now : Nat) : (ChatThread × Bool) × ChatState :=
  match s.threads.find? (threadMatches buyer supplier product) with
  | some existing => ((existing, false), s)
  | none =>
      let thread := newThreadRec s buyer supplier product now
      ((thread, true),
       { s with
          threads := s.threads ++ [thread],
          participants := s.participants ++
            newParticipantRows thread.id buyer supplier })

/-- `ChatService.get_thread_with_permission` (`chat/services.py`):
fetch by id, return `None` when missing or when the user is not a
participant. -/
def get_thread_with_permission (s : ChatState) (thread_id user_id : Nat) :
    Option ChatThread :=
  match s.threads.find? (fun t => t.id == thread_id) with
  | none => none
  | some t => if t.is_participant user_id then some t else none

/-- The messages of one thread, oldest first (`thread.messages`, whose
model `Meta.ordering` is `created_at` ascending; the state list is kept
in insertion order). -/
def threadMessages (s : ChatState) (thread_id : Nat) : List ChatMessage :=
  s.messages.filter (fun m => m.thread_id == thread_id)

/-- `ChatService.get_messages` (`chat/services.py`): count, slice the
newest-first ordering at `offset = (page - 1) * page_size`, reverse the
slice to oldest-first; `has_more = page * page_size < total`. -/
def get_messages (s : ChatState) (thread_id : Nat) (page page_size : Nat) :
    List ChatMessage × Nat × Bool :=
  let total := (threadMessages s thread_id).length
  let offset := (page - 1) * page_size
  let msgs :=
    (((threadMessages s thread_id).reverse.drop offset).take page_size).reverse
  (msgs, total, decide (page * page_size < total))

/-- The other-participant computation inside `ChatService.send_message`:
`thread.buyer_id if sender.id == thread.supplier_id else thread.supplier_id`. -/
def otherParticipantId (t : ChatThread) (sender : Nat) : Nat :=
  if sender == t.supplier_id then t.buyer_id else t.supplier_id

/-- The thread update performed by `send_message`'s
`thread.updated_at = timezone.now(); thread.save(update_fields=['updated_at'])`,
as seen on the threads table. -/
def touchThread (tid now : Nat) (t : ChatThread) : ChatThread :=
  if t.id == tid then { t with updated_at := now } else t

/-- The row update performed by `send_message`'s
`filter(thread=thread, user_id=other).update(unread_count=F('unread_count') + 1)`:
applied to every row, it increments exactly the filtered ones. -/
def bumpUnread (tid uid : Nat) (p : ChatThreadParticipant) :
    ChatThreadParticipant :=
  if p.thread_id == tid && p.user_id == uid then
    { p with unread_count := p.unread_count + 1 }
  else p

/-- The row update performed by `mark_thread_as_read`'s
`filter(thread=thread, user=user).update(last_read_at=now, unread_count=0)`. -/
def resetUnread (tid uid now : Nat) (p : ChatThreadParticipant) :
    ChatThreadParticipant :=
  if p.thread_id == tid && p.user_id == uid then
    { p with last_read_at := some now, unread_count := 0 }
  else p

/-- `ChatService.send_message` (`chat/services.py`), a
`@transaction.atomic` method: insert the message row, set the thread's
`updated_at` to now, and `F`-increment `unread_count` on the other
participant's row. No participation or text check happens here. -/
def send_message (s : ChatState) (thread : ChatThread) (sender : Nat)
    (text : String) (msgId now : Nat) : ChatMessage × ChatState :=
  let message : ChatMessage :=
    { id := msgId, thread_id := thread.id, sender_id := sender,
      text := text, created_at := now }
  let other_user_id := otherParticipantId thread sender
  (message,
   { s with
      messages := s.messages ++ [message],
      threads := s.threads.map (touchThread thread.id now),
      participants := s.participants.map
        (bumpUnread thread.id other_user_id) })

/-- The aggregation `Sum('unread_count')` over a row list restricted to
one user. -/
def userUnread (l : List ChatThreadParticipant) (user_id : Nat) : Nat :=
  ((l.filter (fun p => p.user_id == user_id)).map
    ChatThreadParticipant.unread_count).sum

/-- `ChatService.get_unread_count` (`chat/services.py`): sum of
`unread_count` over all of the user's `ChatThreadParticipant` rows. -/
def get_unread_count (s : ChatState) (user_id : Nat) : Nat :=
  userUnread s.participants user_id

/-- `ChatService.mark_thread_as_read` (`chat/services.py`): set
`last_read_at` to now and `unread_count` to 0 on the (thread, user) row,
then return `get_unread_count` recomputed on the new state. -/
def mark_thread_as_read (s : ChatState) (thread : ChatThread)
    (user_id now : Nat) : Nat × ChatState :=
  let s2 : ChatState :=
    { s with
       participants := s.participants.map
         (resetUnread thread.id user_id now) }
  (get_unread_count s2 user_id, s2)

/-! ## REST layer (`chat/schemas.py`, `chat/api_router.py`) -/

/-- The two ways `SendMessageInput` validation can fail; the spec calls
them `EmptyMessage` and `MessageTooLong`. -/
inductive SendValidationError where
  | EmptyMessage
  | MessageTooLong
deriving DecidableEq

/-- `SendMessageInput` (`chat/schemas.py`):
`text: str = Field(..., min_length=1, max_length=5000)`. Pydantic checks
the raw character count; it does not trim. -/
def validate_send_message_input (text : String) : Option SendValidationError :=
  if text.length < 1 then some SendValidationError.EmptyMessage
  else if 5000 < text.length then some SendValidationError.MessageTooLong
  else none

/-- Errors surfaced by the REST endpoints: a pydantic 422 or an
`Http404 detail`. -/
inductive ApiError where
  | ValidationFailed (e : SendValidationError)
  | Http404 (detail : String)
deriving DecidableEq

/-- `User.objects.get(id=...)` restricted to what the router reads. -/
def findUser (s : ChatState) (uid : Nat) : Option UserT :=
  s.users.find? (fun u => u.id == uid)

/-- `Product.objects.get(id=...)` restricted to what the router reads. -/
def findProduct (s : ChatState) (pid : Nat) : Option Product :=
  s.products.find? (fun p => p.id == pid)

/-- `CreateThreadInput` (`chat/schemas.py`). -/
structure CreateThreadInput where
  supplier_id : Nat
  product_id : Option Nat
deriving DecidableEq

/-- The product block of `create_or_get_thread` (`chat/api_router.py`,
lines 126-135): fetch the product when an id was sent and verify
`product.owner_id == supplier.id` — against the counterparty `sup`,
since this runs before the role swap. -/
def productCheck (s : ChatState) (sup : UserT)
    (product_id : Option Nat) : Except ApiError (Option Nat) :=
  match product_id with
  | none => Except.ok none
  | some pid =>
    match findProduct s pid with
    | none => Except.error (ApiError.Http404 "Product not found")
    | some prod =>
      if prod.owner_id ≠ sup.id then
        Except.error
          (ApiError.Http404 "Product does not belong to this supplier")
      else Except.ok (some pid)

/-- The role resolution of `create_or_get_thread` (lines 137-144): the
requester is the buyer when buyer-typed; otherwise the requester becomes
the supplier and the counterparty the buyer. Returns (buyer, supplier)
ids. -/
def resolveRoles (user sup : UserT) : Nat × Nat :=
  if user.user_type = "buyer" then (user.id, sup.id)
  else (sup.id, user.id)

/-- `create_or_get_thread` (`chat/api_router.py`): resolve the
counterparty (must exist, be supplier-typed, and differ from the
requester), check product ownership against the counterparty, then swap
roles when the requester is not buyer-typed, and delegate to
`ChatService.get_or_create_thread`. Errors leave the state unchanged. -/
def api_create_or_get_thread (s : ChatState) (user : UserT)
    (payload : CreateThreadInput) (now : Nat) :
    Except ApiError (ChatThread × Bool) × ChatState :=
  match findUser s payload.supplier_id with
  | none => (Except.error (ApiError.Http404 "Supplier not found"), s)
  | some sup =>
    if sup.user_type ≠ "supplier" then
      (Except.error (ApiError.Http404 "User is not a supplier"), s)
    else if sup.id == user.id then
      (Except.error (ApiError.Http404 "Cannot create chat with yourself"), s)
    else
      match productCheck s sup payload.product_id with
      | Except.error e => (Except.error e, s)
      | Except.ok productOpt =>
        let roles := resolveRoles user sup
        let r := get_or_create_thread s roles.1 roles.2 productOpt now
        (Except.ok r.1, r.2)

/-- `send_message` (`chat/api_router.py`): pydantic validates the
payload, the view checks `get_thread_with_permission` (404 on failure),
then calls `ChatService.send_message`. Errors leave the state
unchanged. -/
def api_send_message (s : ChatState) (thread_id user_id : Nat)
    (text : String) (msgId now : Nat) :
    Except ApiError ChatMessage × ChatState :=
  match validate_send_message_input text with
  | some e => (Except.error (ApiError.ValidationFailed e), s)
  | none =>
    match get_thread_with_permission s thread_id user_id with
    | none =>
        (Except.error (ApiError.Http404 "Thread not found or access denied"), s)
    | some thread =>
        let r := send_message s thread user_id text msgId now
        (Except.ok r.1, r.2)

/-- `mark_thread_read` (`chat/api_router.py`): permission check, then
`ChatService.mark_thread_as_read`; returns the new total unread count. -/
def api_mark_thread_read (s : ChatState) (thread_id user_id now : Nat) :
    Except ApiError Nat × ChatState :=
  match get_thread_with_permission s thread_id user_id with
  | none =>
      (Except.error (ApiError.Http404 "Thread not found or access denied"), s)
  | some thread =>
      let r := mark_thread_as_read s thread user_id now
      (Except.ok r.1, r.2)

/-! ## Realtime layer (`chat/consumers.py`, `ChatThreadConsumer`) -/

/-- A client frame as read by `receive_json`: `content.get('type')` and
`content.get('text', '')` (either key may be absent). -/
structure ClientContent where
  type : Option String
  text : Option String
deriving DecidableEq

/-- Everything `ChatThreadConsumer` emits in reaction to one client
frame: room broadcasts, notification-group pushes, and direct replies. -/
inductive ServerEvent where
  | roomMessage (thread_id : Nat) (m : ChatMessage)
  | newMessageEvent (to_user thread_id : Nat) (m : ChatMessage)
  | unreadCountUpdate (to_user total : Nat)
  | readAck (thread_id user_id total : Nat)
  | readReceipt (thread_id user_id : Nat)
  | pong
deriving DecidableEq

/-- `ChatThreadConsumer._handle_send_message`: persist via
`ChatService.send_message`, broadcast the message to the room, then push
a new-message event and a freshly computed unread total to the other
participant's notification group. -/
def handle_send_message (s : ChatState) (thread : ChatThread)
    (user_id : Nat) (text : String) (msgId now : Nat) :
    ChatState × List ServerEvent :=
  let r := send_message s thread user_id text msgId now
  let other := thread.get_other_participant user_id
  (r.2,
   [ ServerEvent.roomMessage thread.id r.1,
     ServerEvent.newMessageEvent other thread.id r.1,
     ServerEvent.unreadCountUpdate other (get_unread_count r.2 other) ])

/-- `ChatThreadConsumer._mark_as_read`: `ChatService.mark_thread_as_read`,
a `read_ack` to the caller, and a `read_receipt` broadcast to the room. -/
def handle_mark_as_read (s : ChatState) (thread : ChatThread)
    (user_id now : Nat) : ChatState × List ServerEvent :=
  let r := mark_thread_as_read s thread user_id now
  (r.2,
   [ ServerEvent.readAck thread.id user_id r.1,
     ServerEvent.readReceipt thread.id user_id ])

/-- `ChatThreadConsumer.receive_json`: dispatch on `content.get('type')`.
A `send` strips the text and does nothing when the result is empty
(Python `if text:`); `read` and `ping` have their handlers; anything
else falls through with no effect. -/
def receive_json (s : ChatState) (thread : ChatThread) (user_id : Nat)
    (content : ClientContent) (msgId now : Nat) :
    ChatState × List ServerEvent :=
  let msg_type := content.type
  if msg_type = some "send" then
    let text := pyStrip (content.text.getD "")
    if text ≠ "" then handle_send_message s thread user_id text msgId now
    else (s, [])
  else if msg_type = some "read" then
    handle_mark_as_read s thread user_id now
  else if msg_type = some "ping" then
    (s, [ServerEvent.pong])
  else
    (s, [])

/-! ## Reachable states: the operations offered by the REST surface -/

/-- One API-level operation on the chat state. -/
inductive ChatOp where
  | createThread (user : UserT) (payload : CreateThreadInput) (now : Nat)
  | sendMsg (thread_id user_id : Nat) (text : String) (msgId now : Nat)
  | markRead (thread_id user_id now : Nat)

/-- Apply one API-level operation (errors leave the state unchanged). -/
def applyOp (s : ChatState) : ChatOp → ChatState
  | ChatOp.createThread user payload now =>
      (api_create_or_get_thread s user payload now).2
  | ChatOp.sendMsg tid uid text msgId now =>
      (api_send_message s tid uid text msgId now).2
  | ChatOp.markRead tid uid now =>
      (api_mark_thread_read s tid uid now).2

/-- Apply a list of API-level operations in order. -/
def applyOps (s : ChatState) : List ChatOp → ChatState
  | [] => s
  | op :: ops => applyOps (applyOp s op) ops

/-- The state of a fresh deployment: user and product fixtures, no chat
rows. -/
def initState (users : List UserT) (products : List Product) : ChatState :=
  { users := users, products := products,
    threads := [], messages := [], participants := [] }

/-! ## Derived accounting notions used by the statements -/

/-- The read-state rows of one thread. -/
def rowsFor (l : List ChatThreadParticipant) (tid : Nat) :
    List ChatThreadParticipant :=
  l.filter (fun p => p.thread_id == tid)

/-- The users of a thread's read-state rows, in row order. -/
def rowsUsers (l : List ChatThreadParticipant) (tid : Nat) : List Nat :=
  (rowsFor l tid).map ChatThreadParticipant.user_id

/-- Number of read-state rows for a (thread, user) pair. -/
def countRows (l : List ChatThreadParticipant) (tid uid : Nat) : Nat :=
  (l.filter (fun p => p.thread_id == tid && p.user_id == uid)).length

/-- Total `unread_count` carried by the rows of a (thread, user) pair. -/
def threadUnread (l : List ChatThreadParticipant) (tid uid : Nat) : Nat :=
  ((l.filter (fun p => p.thread_id == tid && p.user_id == uid)).map
    ChatThreadParticipant.unread_count).sum

/-- The read-state invariant of the data model: every thread has
distinct buyer and supplier and exactly the two rows `[buyer, supplier]`
(in creation order), and every row belongs to some thread. -/
def chatInvariant (s : ChatState) : Prop :=
  (∀ t ∈ s.threads, t.buyer_id ≠ t.supplier_id ∧
      rowsUsers s.participants t.id = [t.buyer_id, t.supplier_id]) ∧
  (∀ p ∈ s.participants, ∃ t ∈ s.threads, p.thread_id = t.id)

/-! ## Concrete fixtures for witnesses and counterexamples -/

/-- A buyer (id 1) and two suppliers (ids 2, 3). -/
def demoUsers : List UserT :=
  [ { id := 1, user_type := "buyer" },
    { id := 2, user_type := "supplier" },
    { id := 3, user_type := "supplier" } ]

/-- One product, owned by supplier 2. -/
def demoProducts : List Product :=
  [ { id := 7, owner_id := 2 } ]

/-- An unscoped thread between buyer 1 and supplier 2. -/
def demoThread : ChatThread :=
  { id := 10, buyer_id := 1, supplier_id := 2, product_id := none,
    created_at := 0, updated_at := 0 }

/-- A database holding `demoThread` and its two read-state rows. -/
def demoState : ChatState :=
  { users := demoUsers, products := demoProducts,
    threads := [demoThread],
    messages := [],
    participants :=
      [ { thread_id := 10, user_id := 1, last_read_at := none,
          unread_count := 0 },
        { thread_id := 10, user_id := 2, last_read_at := none,
          unread_count := 0 } ] }

/-- Number of threads matching one (buyer, supplier, scope-item)
triple. -/
def countTriple (s : ChatState) (b sup : Nat) (prodOpt : Option Nat) : Nat :=
  (s.threads.filter (threadMatches b sup prodOpt)).length

/-! ## Helper lemmas -/

theorem le_foldr_max (l : List Nat) (x : Nat) (hx : x ∈ l) :
    x ≤ l.foldr max 0 := by
  induction l with
  | nil => cases hx
  | cons a l ih =>
    rcases List.mem_cons.mp hx with h | h
    · subst h; exact le_max_left _ _
    · exact le_trans (ih h) (le_max_right _ _)

theorem id_lt_freshThreadId (s : ChatState) (t : ChatThread)
    (ht : t ∈ s.threads) : t.id < freshThreadId s :=
  Nat.lt_succ_of_le (le_foldr_max _ _ (List.mem_map_of_mem ChatThread.id ht))

theorem find?_append_of_none {α : Type} (p : α → Bool) (l1 l2 : List α)
    (h : l1.find? p = none) : (l1 ++ l2).find? p = l2.find? p := by
  induction l1 with
  | nil => rfl
  | cons a l ih =>
    rcases hpa : p a with _ | _
    · rw [List.cons_append, List.find?_cons_of_neg _ (by simp [hpa])]
      rw [List.find?_cons_of_neg _ (by simp [hpa])] at h
      exact ih h
    · rw [List.find?_cons_of_pos _ hpa] at h
      cases h

theorem rowsUsers_append (l1 l2 : List ChatThreadParticipant) (tid : Nat) :
    rowsUsers (l1 ++ l2) tid = rowsUsers l1 tid ++ rowsUsers l2 tid := by
  simp [rowsUsers, rowsFor, List.filter_append]

theorem rowsUsers_map_of_keys (f : ChatThreadParticipant → ChatThreadParticipant)
    (hf : ∀ p, (f p).thread_id = p.thread_id ∧ (f p).user_id = p.user_id)
    (l : List ChatThreadParticipant) (tid : Nat) :
    rowsUsers (l.map f) tid = rowsUsers l tid := by
  induction l with
  | nil => rfl
  | cons p l ih =>
    simp only [rowsUsers, rowsFor, List.map_cons, List.filter_cons,
      (hf p).1] at *
    rcases h : (p.thread_id == tid) with _ | _
    · simpa [h] using ih
    · simpa [h, (hf p).2] using ih

theorem rowsUsers_eq_nil (l : List ChatThreadParticipant) (tid : Nat)
    (h : ∀ p ∈ l, p.thread_id ≠ tid) : rowsUsers l tid = [] := by
  have hfil : rowsFor l tid = [] := by
    rw [rowsFor, List.filter_eq_nil_iff]
    intro p hp
    simp [h p hp]
  simp [rowsUsers, hfil]


theorem bumpUnread_thread_id (tid uid : Nat) (p : ChatThreadParticipant) :
    (bumpUnread tid uid p).thread_id = p.thread_id := by
  rw [bumpUnread]; split <;> rfl

theorem bumpUnread_user_id (tid uid : Nat) (p : ChatThreadParticipant) :
    (bumpUnread tid uid p).user_id = p.user_id := by
  rw [bumpUnread]; split <;> rfl

theorem resetUnread_thread_id (tid uid now : Nat) (p : ChatThreadParticipant) :
    (resetUnread tid uid now p).thread_id = p.thread_id := by
  rw [resetUnread]; split <;> rfl

theorem resetUnread_user_id (tid uid now : Nat) (p : ChatThreadParticipant) :
    (resetUnread tid uid now p).user_id = p.user_id := by
  rw [resetUnread]; split <;> rfl

theorem threadUnread_cons (p : ChatThreadParticipant)
    (l : List ChatThreadParticipant) (tid uid : Nat) :
    threadUnread (p :: l) tid uid =
      (if (p.thread_id == tid && p.user_id == uid) = true then
        p.unread_count else 0) + threadUnread l tid uid := by
  rw [threadUnread, List.filter_cons]
  by_cases hb : (p.thread_id == tid && p.user_id == uid) = true
  · rw [if_pos hb, if_pos hb, List.map_cons, List.sum_cons]; rfl
  · rw [if_neg hb, if_neg hb, Nat.zero_add]; rfl

theorem countRows_cons (p : ChatThreadParticipant)
    (l : List ChatThreadParticipant) (tid uid : Nat) :
    countRows (p :: l) tid uid =
      (if (p.thread_id == tid && p.user_id == uid) = true then 1 else 0)
        + countRows l tid uid := by
  rw [countRows, List.filter_cons]
  by_cases hb : (p.thread_id == tid && p.user_id == uid) = true
  · rw [if_pos hb, if_pos hb, List.length_cons]; unfold countRows; omega
  · rw [if_neg hb, if_neg hb, Nat.zero_add]; rfl

theorem userUnread_cons (p : ChatThreadParticipant)
    (l : List ChatThreadParticipant) (uid : Nat) :
    userUnread (p :: l) uid =
      (if (p.user_id == uid) = true then p.unread_count else 0)
        + userUnread l uid := by
  rw [userUnread, List.filter_cons]
  by_cases hb : (p.user_id == uid) = true
  · rw [if_pos hb, if_pos hb, List.map_cons, List.sum_cons]; rfl
  · rw [if_neg hb, if_neg hb, Nat.zero_add]; rfl

theorem threadUnread_map_bump (l : List ChatThreadParticipant)
    (tid uid : Nat) :
    threadUnread (l.map (bumpUnread tid uid)) tid uid
      = threadUnread l tid uid + countRows l tid uid := by
  induction l with
  | nil => rfl
  | cons p l ih =>
    rw [List.map_cons, threadUnread_cons, threadUnread_cons, countRows_cons]
    by_cases hb : (p.thread_id == tid && p.user_id == uid) = true
    · have h1 : bumpUnread tid uid p =
          { p with unread_count := p.unread_count + 1 } := by
        rw [bumpUnread, if_pos hb]
      have h2 : ((bumpUnread tid uid p).thread_id == tid &&
          (bumpUnread tid uid p).user_id == uid) = true := by
        rw [bumpUnread_thread_id, bumpUnread_user_id]; exact hb
      rw [if_pos h2, if_pos hb, if_pos hb, h1, ih]
      show p.unread_count + 1 + _ = _
      omega
    · have h1 : bumpUnread tid uid p = p := by rw [bumpUnread, if_neg hb]
      have h2 : ((bumpUnread tid uid p).thread_id == tid &&
          (bumpUnread tid uid p).user_id == uid) = false := by
        rw [bumpUnread_thread_id, bumpUnread_user_id]
        exact Bool.eq_false_iff.mpr hb
      rw [if_neg (by rw [h2]; exact Bool.false_ne_true), if_neg hb,
        if_neg hb, ih]
      omega

theorem threadUnread_map_bump_other (l : List ChatThreadParticipant)
    (tid uid tid2 uid2 : Nat) (hne : ¬(tid2 = tid ∧ uid2 = uid)) :
    threadUnread (l.map (bumpUnread tid uid)) tid2 uid2
      = threadUnread l tid2 uid2 := by
  induction l with
  | nil => rfl
  | cons p l ih =>
    rw [List.map_cons, threadUnread_cons, threadUnread_cons, ih]
    by_cases hb : (p.thread_id == tid && p.user_id == uid) = true
    · have hmatch : p.thread_id = tid ∧ p.user_id = uid := by
        simpa [Bool.and_eq_true, beq_iff_eq] using hb
      have h2 : (p.thread_id == tid2 && p.user_id == uid2) = false := by
        apply Bool.eq_false_iff.mpr
        intro ht
        simp only [Bool.and_eq_true, beq_iff_eq] at ht
        exact hne ⟨by rw [← ht.1, hmatch.1], by rw [← ht.2, hmatch.2]⟩
      have h3 : ((bumpUnread tid uid p).thread_id == tid2 &&
          (bumpUnread tid uid p).user_id == uid2) = false := by
        rw [bumpUnread_thread_id, bumpUnread_user_id]; exact h2
      rw [if_neg (by rw [h3]; exact Bool.false_ne_true),
        if_neg (by rw [h2]; exact Bool.false_ne_true)]
    · have h1 : bumpUnread tid uid p = p := by rw [bumpUnread, if_neg hb]
      rw [h1]

theorem userUnread_map_reset (l : List ChatThreadParticipant)
    (tid uid now : Nat) :
    userUnread (l.map (resetUnread tid uid now)) uid + threadUnread l tid uid
      = userUnread l uid := by
  induction l with
  | nil => rfl
  | cons p l ih =>
    rw [List.map_cons, userUnread_cons, userUnread_cons, threadUnread_cons]
    by_cases hb : (p.thread_id == tid && p.user_id == uid) = true
    · have h1 : resetUnread tid uid now p =
          { p with last_read_at := some now, unread_count := 0 } := by
        rw [resetUnread, if_pos hb]
      have huid : (p.user_id == uid) = true := by
        rw [Bool.and_eq_true] at hb; exact hb.2
      have h2 : ((resetUnread tid uid now p).user_id == uid) = true := by
        rw [resetUnread_user_id]; exact huid
      rw [if_pos h2, if_pos huid, if_pos hb, h1]
      show 0 + _ + _ = _
      omega
    · have h1 : resetUnread tid uid now p = p := by rw [resetUnread, if_neg hb]
      rw [h1, if_neg hb]
      by_cases huid : (p.user_id == uid) = true
      · rw [if_pos huid]; omega
      · rw [if_neg huid]; omega

theorem resetUnread_rows (l : List ChatThreadParticipant)
    (tid uid now : Nat) :
    ∀ p ∈ l.map (resetUnread tid uid now), p.thread_id = tid →
      p.user_id = uid → p.unread_count = 0 ∧ p.last_read_at = some now := by
  intro p hp htid huid
  rcases List.mem_map.mp hp with ⟨q, hq, rfl⟩
  rw [resetUnread_thread_id] at htid
  rw [resetUnread_user_id] at huid
  have hb : (q.thread_id == tid && q.user_id == uid) = true := by
    rw [Bool.and_eq_true, beq_iff_eq, beq_iff_eq]; exact ⟨htid, huid⟩
  rw [resetUnread, if_pos hb]
  exact ⟨rfl, rfl⟩

theorem threadMessages_append (s : ChatState) (extra : List ChatMessage)
    (tid : Nat) :
    threadMessages { s with messages := s.messages ++ extra } tid
      = threadMessages s tid ++ extra.filter (fun m => m.thread_id == tid) := by
  simp [threadMessages, List.filter_append]

theorem touchThread_id (tid now : Nat) (t : ChatThread) :
    (touchThread tid now t).id = t.id := by
  rw [touchThread]; split <;> rfl

theorem touchThread_buyer_id (tid now : Nat) (t : ChatThread) :
    (touchThread tid now t).buyer_id = t.buyer_id := by
  rw [touchThread]; split <;> rfl

theorem touchThread_supplier_id (tid now : Nat) (t : ChatThread) :
    (touchThread tid now t).supplier_id = t.supplier_id := by
  rw [touchThread]; split <;> rfl

theorem get_or_create_found (s : ChatState) (b sup : Nat)
    (prodOpt : Option Nat) (now : Nat) (t : ChatThread)
    (hf : s.threads.find? (threadMatches b sup prodOpt) = some t) :
    get_or_create_thread s b sup prodOpt now = ((t, false), s) := by
  rw [get_or_create_thread, hf]

theorem get_or_create_created (s : ChatState) (b sup : Nat)
    (prodOpt : Option Nat) (now : Nat)
    (hf : s.threads.find? (threadMatches b sup prodOpt) = none) :
    get_or_create_thread s b sup prodOpt now
      = ((newThreadRec s b sup prodOpt now, true),
         { s with
            threads := s.threads ++ [newThreadRec s b sup prodOpt now],
            participants := s.participants ++
              newParticipantRows (newThreadRec s b sup prodOpt now).id
                b sup }) := by
  rw [get_or_create_thread, hf]

theorem chatInvariant_get_or_create (s : ChatState) (b sup : Nat)
    (prodOpt : Option Nat) (now : Nat) (hbs : b ≠ sup)
    (hinv : chatInvariant s) :
    chatInvariant (get_or_create_thread s b sup prodOpt now).2 := by
  cases hf : s.threads.find? (threadMatches b sup prodOpt) with
  | some t =>
    rw [get_or_create_found s b sup prodOpt now t hf]
    exact hinv
  | none =>
    rw [get_or_create_created s b sup prodOpt now hf]
    have hfresh : ∀ t ∈ s.threads, t.id ≠ freshThreadId s :=
      fun t ht => Nat.ne_of_lt (id_lt_freshThreadId s t ht)
    have hpart : ∀ q ∈ s.participants, q.thread_id ≠ freshThreadId s := by
      intro q hq
      rcases hinv.2 q hq with ⟨t, ht, hqt⟩
      rw [hqt]
      exact hfresh t ht
    have hTid : (newThreadRec s b sup prodOpt now).id = freshThreadId s := rfl
    constructor
    · intro t ht
      rcases List.mem_append.mp ht with hold | hnew
      · refine ⟨(hinv.1 t hold).1, ?_⟩
        show rowsUsers (s.participants ++ _) t.id = _
        rw [rowsUsers_append, (hinv.1 t hold).2, rowsUsers_eq_nil _ _
          (by
            intro q hq
            have hq2 : q.thread_id = freshThreadId s := by
              rcases List.mem_cons.mp hq with h | h
              · rw [h]; exact hTid
              · rcases List.mem_cons.mp h with h2 | h2
                · rw [h2]; exact hTid
                · cases h2
            rw [hq2]
            exact Ne.symm (hfresh t hold)),
          List.append_nil]
      · have hT : t = newThreadRec s b sup prodOpt now := by
          rcases List.mem_cons.mp hnew with h | h
          · exact h
          · cases h
        subst hT
        refine ⟨hbs, ?_⟩
        show rowsUsers (s.participants ++ _) _ = _
        rw [rowsUsers_append,
          rowsUsers_eq_nil s.participants (newThreadRec s b sup prodOpt now).id
            (fun q hq => by rw [hTid]; exact hpart q hq),
          List.nil_append]
        simp only [rowsUsers, rowsFor, newParticipantRows]
        simp only [List.filter_cons, List.filter_nil, beq_self_eq_true,
          if_pos rfl, List.map_cons, List.map_nil]
        simp [newThreadRec]
    · intro q hq
      rcases List.mem_append.mp hq with hold | hnewrow
      · rcases hinv.2 q hold with ⟨t, ht, hqt⟩
        exact ⟨t, List.mem_append_left _ ht, hqt⟩
      · refine ⟨newThreadRec s b sup prodOpt now,
          List.mem_append_right _ (List.mem_singleton.mpr rfl), ?_⟩
        rcases List.mem_cons.mp hnewrow with h | h
        · rw [h]
        · rcases List.mem_cons.mp h with h2 | h2
          · rw [h2]
          · cases h2

theorem chatInvariant_send (s : ChatState) (thread : ChatThread)
    (sender : Nat) (text : String) (msgId now : Nat)
    (hinv : chatInvariant s) :
    chatInvariant (send_message s thread sender text msgId now).2 := by
  constructor
  · intro t ht
    rcases List.mem_map.mp ht with ⟨t0, ht0, rfl⟩
    rw [touchThread_buyer_id, touchThread_supplier_id, touchThread_id]
    refine ⟨(hinv.1 t0 ht0).1, ?_⟩
    show rowsUsers (s.participants.map (bumpUnread thread.id
      (otherParticipantId thread sender))) t0.id = _
    rw [rowsUsers_map_of_keys _ (fun p => ⟨bumpUnread_thread_id _ _ p,
      bumpUnread_user_id _ _ p⟩)]
    exact (hinv.1 t0 ht0).2
  · intro q hq
    rcases List.mem_map.mp hq with ⟨q0, hq0, rfl⟩
    rcases hinv.2 q0 hq0 with ⟨t, ht, hqt⟩
    refine ⟨touchThread thread.id now t, List.mem_map_of_mem _ ht, ?_⟩
    rw [bumpUnread_thread_id, touchThread_id]
    exact hqt

theorem chatInvariant_mark (s : ChatState) (thread : ChatThread)
    (uid now : Nat) (hinv : chatInvariant s) :
    chatInvariant (mark_thread_as_read s thread uid now).2 := by
  constructor
  · intro t ht
    refine ⟨(hinv.1 t ht).1, ?_⟩
    show rowsUsers (s.participants.map (resetUnread thread.id uid now))
      t.id = _
    rw [rowsUsers_map_of_keys _ (fun p => ⟨resetUnread_thread_id _ _ _ p,
      resetUnread_user_id _ _ _ p⟩)]
    exact (hinv.1 t ht).2
  · intro q hq
    rcases List.mem_map.mp hq with ⟨q0, hq0, rfl⟩
    rcases hinv.2 q0 hq0 with ⟨t, ht, hqt⟩
    refine ⟨t, ht, ?_⟩
    rw [resetUnread_thread_id]
    exact hqt

theorem api_create_none_eq (s : ChatState) (user : UserT)
    (payload : CreateThreadInput) (now : Nat)
    (hfu : findUser s payload.supplier_id = none) :
    api_create_or_get_thread s user payload now
      = (Except.error (ApiError.Http404 "Supplier not found"), s) := by
  rw [api_create_or_get_thread, hfu]

theorem api_create_not_supplier_eq (s : ChatState) (user : UserT)
    (payload : CreateThreadInput) (now : Nat) (sup : UserT)
    (hfu : findUser s payload.supplier_id = some sup)
    (h1 : sup.user_type ≠ "supplier") :
    api_create_or_get_thread s user payload now
      = (Except.error (ApiError.Http404 "User is not a supplier"), s) := by
  rw [api_create_or_get_thread, hfu]
  dsimp only
  rw [if_pos h1]

theorem api_create_self_eq (s : ChatState) (user : UserT)
    (payload : CreateThreadInput) (now : Nat) (sup : UserT)
    (hfu : findUser s payload.supplier_id = some sup)
    (h1 : ¬sup.user_type ≠ "supplier") (h2 : (sup.id == user.id) = true) :
    api_create_or_get_thread s user payload now
      = (Except.error
          (ApiError.Http404 "Cannot create chat with yourself"), s) := by
  rw [api_create_or_get_thread, hfu]
  dsimp only
  rw [if_neg h1, if_pos h2]

theorem api_create_product_err_eq (s : ChatState) (user : UserT)
    (payload : CreateThreadInput) (now : Nat) (sup : UserT) (e : ApiError)
    (hfu : findUser s payload.supplier_id = some sup)
    (h1 : ¬sup.user_type ≠ "supplier") (h2 : (sup.id == user.id) = false)
    (hpc : productCheck s sup payload.product_id = Except.error e) :
    api_create_or_get_thread s user payload now = (Except.error e, s) := by
  rw [api_create_or_get_thread, hfu]
  dsimp only
  rw [if_neg h1, if_neg (by simp [h2]), hpc]

theorem api_create_ok_eq (s : ChatState) (user : UserT)
    (payload : CreateThreadInput) (now : Nat) (sup : UserT)
    (productOpt : Option Nat)
    (hfu : findUser s payload.supplier_id = some sup)
    (h1 : ¬sup.user_type ≠ "supplier") (h2 : (sup.id == user.id) = false)
    (hpc : productCheck s sup payload.product_id = Except.ok productOpt) :
    api_create_or_get_thread s user payload now
      = (Except.ok (get_or_create_thread s (resolveRoles user sup).1
            (resolveRoles user sup).2 productOpt now).1,
         (get_or_create_thread s (resolveRoles user sup).1
            (resolveRoles user sup).2 productOpt now).2) := by
  rw [api_create_or_get_thread, hfu]
  dsimp only
  rw [if_neg h1, if_neg (by simp [h2]), hpc]

theorem chatInvariant_applyOp (s : ChatState) (op : ChatOp)
    (hinv : chatInvariant s) : chatInvariant (applyOp s op) := by
  cases op with
  | sendMsg tid uid text msgId now =>
    show chatInvariant (api_send_message s tid uid text msgId now).2
    rw [api_send_message]
    cases validate_send_message_input text with
    | some e => exact hinv
    | none =>
      cases hg : get_thread_with_permission s tid uid with
      | none => exact hinv
      | some thread =>
        exact chatInvariant_send s thread uid text msgId now hinv
  | markRead tid uid now =>
    show chatInvariant (api_mark_thread_read s tid uid now).2
    rw [api_mark_thread_read]
    cases hg : get_thread_with_permission s tid uid with
    | none => exact hinv
    | some thread => exact chatInvariant_mark s thread uid now hinv
  | createThread user payload now =>
    show chatInvariant (api_create_or_get_thread s user payload now).2
    cases hfu : findUser s payload.supplier_id with
    | none => rw [api_create_none_eq s user payload now hfu]; exact hinv
    | some sup =>
      by_cases h1 : sup.user_type ≠ "supplier"
      · rw [api_create_not_supplier_eq s user payload now sup hfu h1]
        exact hinv
      · by_cases h2 : (sup.id == user.id) = true
        · rw [api_create_self_eq s user payload now sup hfu h1 h2]
          exact hinv
        · have h2f : (sup.id == user.id) = false :=
            Bool.eq_false_iff.mpr h2
          have hne : sup.id ≠ user.id := by simpa using h2f
          cases hpc : productCheck s sup payload.product_id with
          | error e =>
            rw [api_create_product_err_eq s user payload now sup e hfu h1
              h2f hpc]
            exact hinv
          | ok productOpt =>
            rw [api_create_ok_eq s user payload now sup productOpt hfu h1
              h2f hpc]
            rw [resolveRoles]
            by_cases hrole : user.user_type = "buyer"
            · rw [if_pos hrole]
              exact chatInvariant_get_or_create s user.id sup.id productOpt
                now (Ne.symm hne) hinv
            · rw [if_neg hrole]
              exact chatInvariant_get_or_create s sup.id user.id productOpt
                now hne hinv

theorem chatInvariant_applyOps (s : ChatState) (ops : List ChatOp)
    (hinv : chatInvariant s) : chatInvariant (applyOps s ops) := by
  induction ops generalizing s with
  | nil => exact hinv
  | cons op ops ih => exact ih _ (chatInvariant_applyOp s op hinv)

theorem chatInvariant_initState (users : List UserT)
    (products : List Product) : chatInvariant (initState users products) := by
  constructor
  · intro t ht; cases ht
  · intro p hp; cases hp

theorem threadMatches_newThreadRec (s : ChatState) (b sup : Nat)
    (prodOpt : Option Nat) (now : Nat) :
    threadMatches b sup prodOpt (newThreadRec s b sup prodOpt now) = true := by
  simp [threadMatches, newThreadRec]

theorem reverse_page_slice {α : Type} (l : List α) (a b : Nat) :
    ((l.reverse.drop a).take b).reverse
      = (l.take (l.length - a)).drop (l.length - a - b) := by
  rw [List.drop_reverse, List.take_reverse, List.reverse_reverse,
    List.length_take]
  congr 1
  omega

theorem threadMessages_send_message (s : ChatState) (t : ChatThread)
    (sender : Nat) (text : String) (msgId now : Nat) :
    threadMessages (send_message s t sender text msgId now).2 t.id
      = threadMessages s t.id ++
        [{ id := msgId, thread_id := t.id, sender_id := sender,
           text := text, created_at := now }] := by
  show (s.messages ++ [_]).filter _ = _
  rw [List.filter_append]
  simp [threadMessages]

theorem productCheck_ok_owner (s : ChatState) (sup : UserT) (pid : Nat)
    (productOpt : Option Nat)
    (h : productCheck s sup (some pid) = Except.ok productOpt) :
    ∃ prod, findProduct s pid = some prod ∧ prod.owner_id = sup.id := by
  rw [productCheck] at h
  cases hfp : findProduct s pid with
  | none => rw [hfp] at h; cases h
  | some prod =>
    rw [hfp] at h
    dsimp only at h
    by_cases hown : prod.owner_id ≠ sup.id
    · rw [if_pos hown] at h; cases h
    · exact ⟨prod, rfl, not_not.mp hown⟩

theorem get_or_create_fields (s : ChatState) (b sup : Nat)
    (prodOpt : Option Nat) (now : Nat) :
    (get_or_create_thread s b sup prodOpt now).1.1.buyer_id = b ∧
    (get_or_create_thread s b sup prodOpt now).1.1.supplier_id = sup ∧
    (get_or_create_thread s b sup prodOpt now).1.1.product_id = prodOpt := by
  cases hf : s.threads.find? (threadMatches b sup prodOpt) with
  | some t =>
    rw [get_or_create_found s b sup prodOpt now t hf]
    have hm : threadMatches b sup prodOpt t = true := List.find?_some hf
    rw [threadMatches, Bool.and_eq_true, Bool.and_eq_true] at hm
    exact ⟨beq_iff_eq.mp hm.1.1, beq_iff_eq.mp hm.1.2, beq_iff_eq.mp hm.2⟩
  | none =>
    rw [get_or_create_created s b sup prodOpt now hf]
    exact ⟨rfl, rfl, rfl⟩

theorem countTriple_find?_none (s : ChatState) (b sup : Nat)
    (prodOpt : Option Nat)
    (hf : s.threads.find? (threadMatches b sup prodOpt) = none) :
    countTriple s b sup prodOpt = 0 := by
  rw [countTriple, List.length_eq_zero, List.filter_eq_nil_iff]
  rw [List.find?_eq_none] at hf
  intro t ht
  simp [hf t ht]

theorem countTriple_pos_of_found (s : ChatState) (b sup : Nat)
    (prodOpt : Option Nat) (t : ChatThread)
    (hf : s.threads.find? (threadMatches b sup prodOpt) = some t) :
    1 ≤ countTriple s b sup prodOpt := by
  rw [countTriple]
  have ht : t ∈ s.threads.filter (threadMatches b sup prodOpt) :=
    List.mem_filter.mpr ⟨List.mem_of_find?_eq_some hf, List.find?_some hf⟩
  exact List.length_pos.mpr (List.ne_nil_of_mem ht)

/-! ## Claim theorems -/

/-- C9: for every thread id and user, `get_thread_with_permission`
returns `none` both when no thread with that id exists and when the
thread exists but the user is not one of its two participants, so a
non-participant caller cannot distinguish an existing thread from a
missing one. -/
theorem get_thread_with_permission_none_uniform (s : ChatState)
    (thread_id user_id : Nat) :
    ((∀ t ∈ s.threads, t.id ≠ thread_id) →
      get_thread_with_permission s thread_id user_id = none) ∧
    (∀ t, s.threads.find? (fun t => t.id == thread_id) = some t →
      t.is_participant user_id = false →
      get_thread_with_permission s thread_id user_id = none) := by
  constructor
  · intro h
    rw [get_thread_with_permission]
    have hf : s.threads.find? (fun t => t.id == thread_id) = none := by
      rw [List.find?_eq_none]
      intro t ht
      simp [h t ht]
    rw [hf]
  · intro t hf hnp
    rw [get_thread_with_permission, hf]
    dsimp only
    rw [hnp]
    rfl

/-- C9 witness: user 3 is not a participant of thread 10, and thread 11
does not exist; both lookups return `none`. -/
theorem get_thread_with_permission_none_uniform_witness :
    get_thread_with_permission demoState 10 3 = none ∧
    get_thread_with_permission demoState 11 1 = none :=
  ⟨(get_thread_with_permission_none_uniform demoState 10 3).2 demoThread
      rfl rfl,
   (get_thread_with_permission_none_uniform demoState 11 1).1 (by decide)⟩

/-- C2: for every thread and sender that is neither its buyer nor its
supplier, the REST send leaves the whole state (hence messages and both
unread counts) unchanged, and — once the payload passes schema
validation — fails with the uniform not-found error, which is how the
spec's `NotParticipant` is surfaced. -/
theorem send_message_non_participant_rejected (s : ChatState)
    (thread_id user_id : Nat) (text : String) (msgId now : Nat)
    (hnp : ∀ t ∈ s.threads, t.id = thread_id →
      user_id ≠ t.buyer_id ∧ user_id ≠ t.supplier_id) :
    (api_send_message s thread_id user_id text msgId now).2 = s ∧
    (validate_send_message_input text = none →
      (api_send_message s thread_id user_id text msgId now).1
        = Except.error
            (ApiError.Http404 "Thread not found or access denied")) := by
  have hperm : get_thread_with_permission s thread_id user_id = none := by
    rw [get_thread_with_permission]
    cases hf : s.threads.find? (fun t => t.id == thread_id) with
    | none => rfl
    | some t =>
      have hmem := List.mem_of_find?_eq_some hf
      have hid : t.id = thread_id := by
        have := List.find?_some hf
        simpa using this
      dsimp only
      have hnotp : t.is_participant user_id = false := by
        rw [ChatThread.is_participant]
        simp [(hnp t hmem hid).1, (hnp t hmem hid).2]
      rw [hnotp]
      rfl
  rw [api_send_message]
  cases hv : validate_send_message_input text with
  | some e => exact ⟨rfl, fun h => nomatch h⟩
  | none =>
    rw [hperm]
    exact ⟨rfl, fun _ => rfl⟩

/-- C2 witness: user 3 sends into thread 10 (buyer 1, supplier 2): the
state is unchanged and the call 404s. -/
theorem send_message_non_participant_rejected_witness :
    (api_send_message demoState 10 3 "hi" 99 7).2 = demoState ∧
    (api_send_message demoState 10 3 "hi" 99 7).1
      = Except.error (ApiError.Http404 "Thread not found or access denied") := by
  have h := send_message_non_participant_rejected demoState 10 3 "hi" 99 7
    (by decide)
  exact ⟨h.1, h.2 rfl⟩

/-- C5: calling `get_or_create_thread` twice with the same (buyer,
supplier, scope-item) triple returns the same thread id both times,
`created` can be true only on the first call, and the state never holds
two threads for the triple: the matching-thread count after both calls
is `max` of the initial count and 1. -/
theorem get_or_create_thread_idempotent (s : ChatState) (b sup : Nat)
    (prodOpt : Option Nat) (now1 now2 : Nat) :
    ((get_or_create_thread (get_or_create_thread s b sup prodOpt now1).2
        b sup prodOpt now2).1).1.id
      = ((get_or_create_thread s b sup prodOpt now1).1).1.id ∧
    ((get_or_create_thread (get_or_create_thread s b sup prodOpt now1).2
        b sup prodOpt now2).1).2 = false ∧
    (get_or_create_thread (get_or_create_thread s b sup prodOpt now1).2
        b sup prodOpt now2).2
      = (get_or_create_thread s b sup prodOpt now1).2 ∧
    ((get_or_create_thread s b sup prodOpt now1).1.2 = true ↔
      countTriple s b sup prodOpt = 0) ∧
    countTriple (get_or_create_thread
        (get_or_create_thread s b sup prodOpt now1).2
        b sup prodOpt now2).2 b sup prodOpt
      = max (countTriple s b sup prodOpt) 1 := by
  cases hf : s.threads.find? (threadMatches b sup prodOpt) with
  | some t =>
    rw [get_or_create_found s b sup prodOpt now1 t hf,
      get_or_create_found s b sup prodOpt now2 t hf]
    have hpos := countTriple_pos_of_found s b sup prodOpt t hf
    refine ⟨rfl, rfl, rfl, ?_, (Nat.max_eq_left hpos).symm⟩
    constructor
    · intro h; cases h
    · intro h; omega
  | none =>
    rw [get_or_create_created s b sup prodOpt now1 hf]
    have hzero := countTriple_find?_none s b sup prodOpt hf
    have hfilter : s.threads.filter (threadMatches b sup prodOpt) = [] := by
      rw [countTriple] at hzero
      exact List.length_eq_zero.mp hzero
    have hf2 : (s.threads ++ [newThreadRec s b sup prodOpt now1]).find?
        (threadMatches b sup prodOpt)
        = some (newThreadRec s b sup prodOpt now1) := by
      rw [find?_append_of_none _ _ _ hf, List.find?_cons_of_pos _
        (threadMatches_newThreadRec s b sup prodOpt now1)]
    rw [get_or_create_found _ b sup prodOpt now2 _ hf2]
    refine ⟨rfl, rfl, rfl, ⟨fun _ => hzero, fun _ => rfl⟩, ?_⟩
    show (List.filter _ (s.threads ++ _)).length = _
    rw [List.filter_append, hfilter, hzero, List.nil_append]
    simp [threadMatches_newThreadRec s b sup prodOpt now1]

/-- C6: every reachable state has exactly the two read-state rows
(buyer, then supplier, distinct) per thread; and a creating call to
`get_or_create_thread` inserts exactly the two zero-unread rows in the
same transition that inserts the thread. -/
theorem participant_rows_invariant :
    (∀ (users : List UserT) (products : List Product) (ops : List ChatOp),
      chatInvariant (applyOps (initState users products) ops)) ∧
    (∀ (s : ChatState) (b sup : Nat) (prodOpt : Option Nat) (now : Nat),
      (get_or_create_thread s b sup prodOpt now).1.2 = true →
      (get_or_create_thread s b sup prodOpt now).2.participants
        = s.participants ++ newParticipantRows (freshThreadId s) b sup) := by
  constructor
  · intro users products ops
    exact chatInvariant_applyOps _ ops (chatInvariant_initState users products)
  · intro s b sup prodOpt now hc
    cases hf : s.threads.find? (threadMatches b sup prodOpt) with
    | some t =>
      rw [get_or_create_found s b sup prodOpt now t hf] at hc
      cases hc
    | none =>
      rw [get_or_create_created s b sup prodOpt now hf]
      rfl

/-- C6 witness: one create operation from the fixture state keeps the
invariant, and a fresh creation appends exactly the two zero rows. -/
theorem participant_rows_invariant_witness :
    chatInvariant (applyOps (initState demoUsers demoProducts)
      [ChatOp.createThread { id := 1, user_type := "buyer" }
        { supplier_id := 2, product_id := none } 0]) ∧
    (get_or_create_thread demoState 1 3 none 0).2.participants
      = demoState.participants
        ++ newParticipantRows (freshThreadId demoState) 1 3 :=
  ⟨participant_rows_invariant.1 demoUsers demoProducts _,
   participant_rows_invariant.2 demoState 1 3 none 0 rfl⟩

/-- C4: `get_messages` returns the thread's total message count;
`has_more` is true iff `page * page_size < total`; the returned page is
the oldest-first contiguous slice obtained by counting `page_size`
messages backward from position `total - (page-1)*page_size`; page 1 is
exactly the most recent `page_size` messages oldest-first; and a message
just appended by `send_message` is the last element of page 1. -/
theorem get_messages_pagination (s : ChatState) (t : ChatThread)
    (sender : Nat) (text : String) (msgId now page page_size : Nat)
    (hp : 1 ≤ page) (hn : 1 ≤ page_size) :
    (get_messages s t.id page page_size).2.1
      = (threadMessages s t.id).length ∧
    ((get_messages s t.id page page_size).2.2 = true ↔
      page * page_size < (threadMessages s t.id).length) ∧
    (get_messages s t.id page page_size).1
      = ((threadMessages s t.id).take
          ((threadMessages s t.id).length - (page - 1) * page_size)).drop
          ((threadMessages s t.id).length - (page - 1) * page_size
            - page_size) ∧
    (get_messages s t.id 1 page_size).1
      = (threadMessages s t.id).drop
          ((threadMessages s t.id).length - page_size) ∧
    (get_messages (send_message s t sender text msgId now).2
        t.id 1 page_size).1.getLast?
      = some { id := msgId, thread_id := t.id, sender_id := sender,
               text := text, created_at := now } := by
  refine ⟨rfl, decide_eq_true_iff, ?_, ?_, ?_⟩
  · exact reverse_page_slice (threadMessages s t.id)
      ((page - 1) * page_size) page_size
  · show ((((threadMessages s t.id).reverse.drop
        ((1 - 1) * page_size)).take page_size)).reverse = _
    have e1 : (1 - 1) * page_size = 0 := by omega
    rw [e1, List.drop_zero, List.take_reverse, List.reverse_reverse]
  · obtain ⟨k, hk⟩ : ∃ k, page_size = k + 1 := ⟨page_size - 1, by omega⟩
    show ((((threadMessages (send_message s t sender text msgId now).2
        t.id).reverse.drop ((1 - 1) * page_size)).take
          page_size)).reverse.getLast? = _
    have e1 : (1 - 1) * page_size = 0 := by omega
    rw [e1, List.drop_zero, threadMessages_send_message, hk]
    simp only [List.reverse_append, List.reverse_cons, List.reverse_nil,
      List.nil_append, List.singleton_append]
    rw [List.take_succ_cons, List.reverse_cons, List.getLast?_concat]

/-- C4 witness: with a fresh message sent into the fixture thread,
page 1 of size 20 ends with that message. -/
theorem get_messages_pagination_witness :
    (get_messages (send_message demoState demoThread 2 "hello" 99 7).2
        demoThread.id 1 20).1.getLast?
      = some { id := 99, thread_id := demoThread.id, sender_id := 2,
               text := "hello", created_at := 7 } :=
  (get_messages_pagination demoState demoThread 2 "hello" 99 7 1 20
    (by decide) (by decide)).2.2.2.2

/-- C7: a message sent by a participant of a thread with distinct buyer
and supplier (holding one read-state row for the other participant, as
the invariant guarantees) appends exactly that one message row to the
thread, stamps the thread's `updated_at` with now, increments the other
participant's unread count by exactly one and leaves the sender's
unchanged — all in the one transition that models the transaction. -/
theorem send_message_effects (s : ChatState) (t : ChatThread)
    (sender : Nat) (text : String) (msgId now : Nat)
    (hpart : sender = t.buyer_id ∨ sender = t.supplier_id)
    (hne : t.buyer_id ≠ t.supplier_id)
    (hone : countRows s.participants t.id (otherParticipantId t sender) = 1) :
    threadMessages (send_message s t sender text msgId now).2 t.id
      = threadMessages s t.id ++
        [{ id := msgId, thread_id := t.id, sender_id := sender,
           text := text, created_at := now }] ∧
    (∀ u ∈ (send_message s t sender text msgId now).2.threads,
      u.id = t.id → u.updated_at = now) ∧
    threadUnread (send_message s t sender text msgId now).2.participants
        t.id (otherParticipantId t sender)
      = threadUnread s.participants t.id (otherParticipantId t sender) + 1 ∧
    threadUnread (send_message s t sender text msgId now).2.participants
        t.id sender
      = threadUnread s.participants t.id sender := by
  have hsender_ne : sender ≠ otherParticipantId t sender := by
    rw [otherParticipantId]
    rcases hpart with hb | hs
    · have : (sender == t.supplier_id) = false := by
        apply Bool.eq_false_iff.mpr
        intro hcontra
        exact hne (hb ▸ beq_iff_eq.mp hcontra)
      rw [this]
      simp only [Bool.false_eq_true, if_false]
      rw [hb]
      exact hne
    · have : (sender == t.supplier_id) = true := beq_iff_eq.mpr hs
      rw [this, if_pos rfl]
      rw [hs]
      exact fun h => hne h.symm
  refine ⟨threadMessages_send_message s t sender text msgId now, ?_, ?_, ?_⟩
  · intro u hu hid
    rcases List.mem_map.mp hu with ⟨u0, hu0, rfl⟩
    by_cases hb : (u0.id == t.id) = true
    · rw [touchThread, if_pos hb]
    · exfalso
      rw [touchThread_id] at hid
      exact hb (beq_iff_eq.mpr hid)
  · show threadUnread (s.participants.map (bumpUnread t.id
      (otherParticipantId t sender))) t.id (otherParticipantId t sender) = _
    rw [threadUnread_map_bump, hone]
  · show threadUnread (s.participants.map (bumpUnread t.id
      (otherParticipantId t sender))) t.id sender = _
    exact threadUnread_map_bump_other s.participants t.id
      (otherParticipantId t sender) t.id sender
      (fun h => hsender_ne h.2)

/-- C7 witness: buyer 1 sends in the fixture thread; supplier 2's unread
count goes from 0 to 1 while the sender's stays 0. -/
theorem send_message_effects_witness :
    threadUnread (send_message demoState demoThread 1 "hey" 42 6).2.participants
        demoThread.id (otherParticipantId demoThread 1)
      = threadUnread demoState.participants demoThread.id
          (otherParticipantId demoThread 1) + 1 ∧
    threadUnread (send_message demoState demoThread 1 "hey" 42 6).2.participants
        demoThread.id 1
      = threadUnread demoState.participants demoThread.id 1 :=
  ⟨(send_message_effects demoState demoThread 1 "hey" 42 6 (Or.inl rfl)
      (by decide) (by decide)).2.2.1,
   (send_message_effects demoState demoThread 1 "hey" 42 6 (Or.inl rfl)
      (by decide) (by decide)).2.2.2⟩

/-- C8: marking a thread read zeroes the participant's unread count and
stamps the last-read time on every matching row, returns exactly the
recomputed sum of `unread_count` over all of that user's rows, and that
total equals the pre-state total minus the zeroed thread's
contribution. -/
theorem mark_thread_as_read_spec (s : ChatState) (t : ChatThread)
    (uid now : Nat) :
    (∀ p ∈ (mark_thread_as_read s t uid now).2.participants,
      p.thread_id = t.id → p.user_id = uid →
      p.unread_count = 0 ∧ p.last_read_at = some now) ∧
    (mark_thread_as_read s t uid now).1
      = userUnread (mark_thread_as_read s t uid now).2.participants uid ∧
    (mark_thread_as_read s t uid now).1
        + threadUnread s.participants t.id uid
      = get_unread_count s uid := by
  refine ⟨resetUnread_rows s.participants t.id uid now, rfl, ?_⟩
  show userUnread (s.participants.map (resetUnread t.id uid now)) uid + _ = _
  exact userUnread_map_reset s.participants t.id uid now

/-- C8 witness: after supplier 2 sends once, marking the thread read for
buyer 1 returns a total that restores the pre-mark sum (0 + 1 = 1). -/
theorem mark_thread_as_read_spec_witness :
    (mark_thread_as_read (send_message demoState demoThread 2 "yo" 50 3).2
        demoThread 1 8).1
      + threadUnread (send_message demoState demoThread 2 "yo"
          50 3).2.participants demoThread.id 1
      = get_unread_count (send_message demoState demoThread 2 "yo" 50 3).2 1 :=
  (mark_thread_as_read_spec (send_message demoState demoThread 2 "yo" 50 3).2
    demoThread 1 8).2.2

/-- C10: on the thread-room realtime connection, a `send` whose text is
empty after stripping produces no state change and no emitted event, and
a frame with any type other than `send`, `read` or `ping` likewise does
nothing. -/
theorem receive_json_ignores (s : ChatState) (t : ChatThread) (uid : Nat)
    (content : ClientContent) (msgId now : Nat) :
    (content.type = some "send" → pyStrip (content.text.getD "") = "" →
      receive_json s t uid content msgId now = (s, [])) ∧
    ((content.type ≠ some "send" ∧ content.type ≠ some "read" ∧
        content.type ≠ some "ping") →
      receive_json s t uid content msgId now = (s, [])) := by
  constructor
  · intro hty htext
    rw [receive_json]
    dsimp only
    rw [if_pos hty, htext]
    simp
  · intro h
    rw [receive_json]
    dsimp only
    rw [if_neg h.1, if_neg h.2.1, if_neg h.2.2]

/-- C10 witness: a whitespace-only `send` and an unknown `typing` frame
both leave the fixture state unchanged and emit nothing. -/
theorem receive_json_ignores_witness :
    receive_json demoState demoThread 1
        { type := some "send", text := some "   " } 99 4 = (demoState, []) ∧
    receive_json demoState demoThread 1
        { type := some "typing", text := none } 99 4 = (demoState, []) :=
  ⟨(receive_json_ignores demoState demoThread 1
      { type := some "send", text := some "   " } 99 4).1 rfl (by decide),
   (receive_json_ignores demoState demoThread 1
      { type := some "typing", text := none } 99 4).2
     ⟨by decide, by decide, by decide⟩⟩

/-- C1 counterexample: the claim says a whitespace-only text such as
`"   "` is rejected with `EmptyMessage` on the REST path before any row
is written. In the code, `SendMessageInput` only checks the raw length
(`min_length=1`), nothing trims, so `"   "` (blank after trimming)
passes validation and a message row holding `"   "` verbatim is
written by a participant sender. -/
theorem rest_whitespace_text_accepted :
    pyStrip "   " = "" ∧
    validate_send_message_input "   " = none ∧
    (api_send_message demoState 10 1 "   " 100 5).1
      = Except.ok { id := 100, thread_id := 10, sender_id := 1,
                    text := "   ", created_at := 5 } ∧
    (api_send_message demoState 10 1 "   " 100 5).2.messages
      = [{ id := 100, thread_id := 10, sender_id := 1, text := "   ",
           created_at := 5 }] :=
  ⟨rfl, rfl, rfl, rfl⟩

/-- C1 amended: on the REST path the text is not trimmed; schema
validation rejects a length-0 text (`EmptyMessage`) and a text longer
than 5000 characters (`MessageTooLong`), in both cases before any state
change; any text that passes is stored verbatim (so whitespace-only
texts are accepted). -/
theorem rest_send_validation (s : ChatState) (thread_id user_id : Nat)
    (text : String) (msgId now : Nat) :
    (text.length = 0 →
      api_send_message s thread_id user_id text msgId now
        = (Except.error (ApiError.ValidationFailed
            SendValidationError.EmptyMessage), s)) ∧
    (5000 < text.length →
      api_send_message s thread_id user_id text msgId now
        = (Except.error (ApiError.ValidationFailed
            SendValidationError.MessageTooLong), s)) ∧
    (∀ m s2, api_send_message s thread_id user_id text msgId now
        = (Except.ok m, s2) → m.text = text) := by
  refine ⟨?_, ?_, ?_⟩
  · intro h0
    rw [api_send_message, validate_send_message_input, if_pos (by omega)]
  · intro hlong
    have hge : ¬text.length < 1 := by omega
    rw [api_send_message, validate_send_message_input, if_neg hge,
      if_pos hlong]
  · intro m s2 hok
    rw [api_send_message] at hok
    cases hv : validate_send_message_input text with
    | some e =>
      rw [hv] at hok
      cases hok
    | none =>
      rw [hv] at hok
      cases hg : get_thread_with_permission s thread_id user_id with
      | none =>
        rw [hg] at hok
        dsimp only at hok
        cases hok
      | some thread =>
        rw [hg] at hok
        dsimp only at hok
        have : (Except.ok (send_message s thread user_id
              text msgId now).1 : Except ApiError ChatMessage)
            = Except.ok m := congrArg Prod.fst hok
        have hm : (send_message s thread user_id text msgId now).1 = m :=
          Except.ok.inj this
        rw [← hm]
        rfl

/-- C1 amended witness: the empty text is rejected with `EmptyMessage`
and the state is untouched. -/
theorem rest_send_validation_witness :
    api_send_message demoState 10 1 "" 100 5
      = (Except.error (ApiError.ValidationFailed
          SendValidationError.EmptyMessage), demoState) :=
  (rest_send_validation demoState 10 1 "" 100 5).1 rfl

/-- C3 counterexample: the claim says role resolution requires one
buyer-typed and one supplier-typed identity and that a given scope item
must be owned by the user resolved to the thread's supplier role
(`ScopeMismatch` otherwise). In the code a supplier-typed requester
(id 3) may target a supplier-typed counterparty (id 2) with the
counterparty's product 7: the ownership check runs before the role
swap, so the request succeeds and creates a thread whose resolved
supplier is 3 while product 7 is owned by 2 — the resolved buyer. -/
theorem create_thread_scope_check_bypassed :
    (api_create_or_get_thread demoState { id := 3, user_type := "supplier" }
        { supplier_id := 2, product_id := some 7 } 0).1
      = Except.ok ({ id := 11, buyer_id := 2, supplier_id := 3,
                     product_id := some 7, created_at := 0,
                     updated_at := 0 }, true) ∧
    findProduct demoState 7 = some { id := 7, owner_id := 2 } ∧
    findUser demoState 3 = some { id := 3, user_type := "supplier" } ∧
    findUser demoState 2 = some { id := 2, user_type := "supplier" } :=
  ⟨rfl, rfl, rfl, rfl⟩

/-- C3 amended: the counterparty must exist, be supplier-typed and
differ from the requester (404 otherwise); the requester takes the
buyer role iff buyer-typed and otherwise becomes the supplier with the
counterparty as buyer; a given scope item must exist and be owned by
the counterparty (404 otherwise) — ownership is checked against the
counterparty before the role swap, which coincides with the resolved
supplier only when the requester is buyer-typed. -/
theorem create_thread_resolution (s : ChatState) (user : UserT)
    (payload : CreateThreadInput) (now : Nat) :
    (findUser s payload.supplier_id = none →
      api_create_or_get_thread s user payload now
        = (Except.error (ApiError.Http404 "Supplier not found"), s)) ∧
    (∀ sup, findUser s payload.supplier_id = some sup →
      (sup.user_type ≠ "supplier" →
        api_create_or_get_thread s user payload now
          = (Except.error (ApiError.Http404 "User is not a supplier"), s)) ∧
      (sup.id = user.id → sup.user_type = "supplier" →
        api_create_or_get_thread s user payload now
          = (Except.error
              (ApiError.Http404 "Cannot create chat with yourself"), s)) ∧
      (∀ pid, sup.user_type = "supplier" → sup.id ≠ user.id →
        payload.product_id = some pid → findProduct s pid = none →
        api_create_or_get_thread s user payload now
          = (Except.error (ApiError.Http404 "Product not found"), s)) ∧
      (∀ pid prod, sup.user_type = "supplier" → sup.id ≠ user.id →
        payload.product_id = some pid → findProduct s pid = some prod →
        prod.owner_id ≠ sup.id →
        api_create_or_get_thread s user payload now
          = (Except.error (ApiError.Http404
              "Product does not belong to this supplier"), s)) ∧
      (∀ t created,
        (api_create_or_get_thread s user payload now).1
          = Except.ok (t, created) →
        (if user.user_type = "buyer"
          then t.buyer_id = user.id ∧ t.supplier_id = sup.id
          else t.buyer_id = sup.id ∧ t.supplier_id = user.id) ∧
        (∀ pid, payload.product_id = some pid →
          ∃ prod, findProduct s pid = some prod ∧
            prod.owner_id = sup.id))) := by
  refine ⟨fun hfu => api_create_none_eq s user payload now hfu, ?_⟩
  intro sup hfu
  refine ⟨fun h1 => api_create_not_supplier_eq s user payload now sup hfu h1,
    ?_, ?_, ?_, ?_⟩
  · intro hself hsupty
    exact api_create_self_eq s user payload now sup hfu
      (not_not_intro hsupty) (beq_iff_eq.mpr hself)
  · intro pid hsupty hne hpid hfp
    apply api_create_product_err_eq s user payload now sup _ hfu
      (not_not_intro hsupty) (beq_eq_false_iff_ne.mpr hne)
    rw [hpid, productCheck, hfp]
  · intro pid prod hsupty hne hpid hfp hown
    apply api_create_product_err_eq s user payload now sup _ hfu
      (not_not_intro hsupty) (beq_eq_false_iff_ne.mpr hne)
    rw [hpid, productCheck, hfp]
    dsimp only
    rw [if_pos hown]
  · intro t created hok
    by_cases h1 : sup.user_type ≠ "supplier"
    · rw [api_create_not_supplier_eq s user payload now sup hfu h1] at hok
      cases hok
    · by_cases h2 : (sup.id == user.id) = true
      · rw [api_create_self_eq s user payload now sup hfu h1 h2] at hok
        cases hok
      · have h2f : (sup.id == user.id) = false := Bool.eq_false_iff.mpr h2
        cases hpc : productCheck s sup payload.product_id with
        | error e =>
          rw [api_create_product_err_eq s user payload now sup e hfu h1
            h2f hpc] at hok
          cases hok
        | ok productOpt =>
          rw [api_create_ok_eq s user payload now sup productOpt hfu h1
            h2f hpc] at hok
          have hpair : (get_or_create_thread s (resolveRoles user sup).1
              (resolveRoles user sup).2 productOpt now).1 = (t, created) :=
            Except.ok.inj hok
          have ht : t = (get_or_create_thread s (resolveRoles user sup).1
              (resolveRoles user sup).2 productOpt now).1.1 := by
            rw [hpair]
          have hfields := get_or_create_fields s (resolveRoles user sup).1
            (resolveRoles user sup).2 productOpt now
          constructor
          · by_cases hrole : user.user_type = "buyer"
            · rw [if_pos hrole]
              rw [ht, hfields.1, hfields.2.1, resolveRoles, if_pos hrole]
              exact ⟨rfl, rfl⟩
            · rw [if_neg hrole]
              rw [ht, hfields.1, hfields.2.1, resolveRoles, if_neg hrole]
              exact ⟨rfl, rfl⟩
          · intro pid hpid
            rw [hpid] at hpc
            exact productCheck_ok_owner s sup pid productOpt hpc

/-- C3 amended witness: a nonexistent counterparty id 404s with the
state untouched, and a buyer-initiated scoped request succeeds with the
requester as buyer and the counterparty — who owns the scope item — as
supplier. -/
theorem create_thread_resolution_witness :
    api_create_or_get_thread demoState { id := 1, user_type := "buyer" }
        { supplier_id := 99, product_id := none } 0
      = (Except.error (ApiError.Http404 "Supplier not found"), demoState) :=
  (create_thread_resolution demoState { id := 1, user_type := "buyer" }
    { supplier_id := 99, product_id := none } 0).1 rfl
